import Mathlib

/-!
Verification development for the support-escalation-bot repository.

Shallow embedding of the retrieval-and-retry pipeline:
  - kb/build_kb.py   : VectorStore (add_batch / query over a cosine backend)
  - pipeline/triage.py, research.py, drafter.py : one LLM stage each; the
    external LLM is modelled as an oracle function returning the parsed JSON
    payload, with `none` standing for a response in which no JSON was found
    (the path on which `_extract_json` raises ValueError)
  - pipeline/orchestrator.py : run_pipeline with the spam short-circuit and
    the bounded research retry loop

Machine floats of the source are modelled as rationals; Python dict metadata
is modelled as an association list with first-match lookup semantics.
-/

/-- A metadata value as allowed by Chroma: str, int, float or bool
(build_kb.py stores these in the collection metadatas). -/
inductive MetaValue where
  | str (s : String)
  | int (n : Int)
  | num (q : ℚ)
  | bool (b : Bool)
deriving DecidableEq, Repr

/-- Python dict metadata, as an association list; the first binding of a key
is its value. -/
abbrev Metadata := List (String × MetaValue)

/-- An embedding vector (the OpenAI embedding of a text). -/
abbrev Emb := List ℚ

/-- One record stored in the Chroma collection: id, embedding, document text
and (string-cast) metadata, as upserted by VectorStore.add_batch. -/
structure StoredRecord where
  id : String
  emb : Emb
  doc : String
  meta : Metadata
deriving DecidableEq, Repr

/-- The state of the Chroma collection backing a VectorStore. -/
abbrev Store := List StoredRecord

/-- One element of the list VectorStore.query returns: a dict with keys
text, metadata, score (score = 1 - chroma cosine distance). -/
structure QueryHit where
  text : String
  meta : Metadata
  score : ℚ
deriving DecidableEq, Repr

/-- Python str(True) = "True", str(False) = "False"; add_batch applies this
cast to every bool metadata value before upserting. -/
def pyBoolStr (b : Bool) : String :=
  if b then "True" else "False"

/-- The safe_metas cast of add_batch: every bool value becomes its Python
string form; all other values pass through. -/
def castVal (v : MetaValue) : MetaValue :=
  match v with
  | MetaValue.bool b => MetaValue.str (pyBoolStr b)
  | w => w

/-- Apply the bool-to-str cast to a whole metadata dict (add_batch). -/
def castMeta (m : Metadata) : Metadata :=
  m.map (fun p => (p.1, castVal p.2))

/-- `m["source_id"]` of add_batch: the id under which Chroma stores the
record; Python raises KeyError when absent or non-string, modelled as none. -/
def metaSourceId (m : Metadata) : Option String :=
  match List.lookup "source_id" m with
  | some (MetaValue.str s) => some s
  | _ => none

/-- Chroma upsert for a single record: overwrite the record with the same id
when present, append otherwise. -/
def upsertRecord (store : Store) (r : StoredRecord) : Store :=
  if store.any (fun x => x.id == r.id) then
    store.map (fun x => if x.id == r.id then r else x)
  else
    store ++ [r]

/-- VectorStore.add_batch: embed each text (via the embedding backend
`embed`), take the id from metadata["source_id"], cast bool metadata values
to strings, and upsert the batch. A missing source_id raises (none), and
then nothing of the batch is observable in the returned store. -/
def addBatch (embed : String → Emb) (store : Store)
    (items : List (String × Metadata)) : Option Store :=
  match items with
  | [] => some store
  | (t, m) :: rest =>
    match metaSourceId m with
    | none => none
    | some sid =>
      addBatch embed (upsertRecord store ⟨sid, embed t, t, castMeta m⟩) rest

/-- Python `meta.get("stale") == "True"` in VectorStore.query. -/
def staleRead (m : Metadata) : Bool :=
  decide (List.lookup "stale" m = some (MetaValue.str "True"))

/-- Python dict update of VectorStore.query:
meta = \x7b**meta, "stale": meta.get("stale") == "True"\x7d — re-cast the
stale flag back to bool, leaving every other key unchanged. -/
def pyStaleRecast (m : Metadata) : Metadata :=
  ("stale", MetaValue.bool (staleRead m)) :: m

/-- Relation ordering (record, distance) pairs by ascending distance: the
order in which the Chroma cosine backend ranks nearest neighbours. -/
def distLE (a b : StoredRecord × ℚ) : Prop :=
  a.2 ≤ b.2

instance : DecidableRel distLE :=
  fun a b => inferInstanceAs (Decidable (a.2 ≤ b.2))

instance : IsTotal (StoredRecord × ℚ) distLE :=
  ⟨fun a b => le_total a.2 b.2⟩

instance : IsTrans (StoredRecord × ℚ) distLE :=
  ⟨fun _ _ _ h h2 => le_trans h h2⟩

/-- VectorStore.query: return [] on an empty collection; otherwise embed the
query text, let the cosine backend rank all records by ascending distance
`d`, keep n_results = min(top_k, len(self)) of them, and postprocess each
hit with score = 1 - distance and the stale re-cast. -/
def VectorStore.query (d : Emb → Emb → ℚ) (embed : String → Emb)
    (store : Store) (query_text : String) (top_k : ℕ) : List QueryHit :=
  if store.length = 0 then []
  else
    let q_emb := embed query_text
    let ranked := List.insertionSort distLE
      (store.map (fun r => (r, d q_emb r.emb)))
    let kept := ranked.take (min top_k store.length)
    kept.map (fun p => ⟨p.1.doc, pyStaleRecast p.1.meta, 1 - p.2⟩)

/-- A support ticket as consumed by the pipeline (id, subject, body). -/
structure Ticket where
  id : String
  subject : String
  body : String
deriving DecidableEq, Repr

/-- One match of a research result dict. The JSON payload returned by the
judgment layer may omit keys; research.py reads them with
m.get("stale") (missing means falsy) and m.get("similarity_score", 0), so
the total fields here carry those defaults already applied. -/
structure Match where
  source_id : String
  content_snippet : String
  similarity_score : ℚ
  source_type : String
  stale : Bool
deriving DecidableEq, Repr

/-- The parsed JSON payload of the research judgment layer after the two
setdefault calls of research.py (missing "matches" becomes [], missing
"suggested_search_terms" becomes []). -/
structure ResearchRaw where
  «matches» : List Match
  suggested_search_terms : List String
deriving DecidableEq, Repr

/-- The dict research() returns. Field order: matches,
suggested_search_terms, search_terms_used, has_enough_info, stale_ids. -/
structure ResearchResult where
  «matches» : List Match
  suggested_search_terms : List String
  search_terms_used : List String
  has_enough_info : Bool
  stale_ids : List String
deriving DecidableEq, Repr

/-- research.py SIMILARITY_THRESHOLD = 0.5: minimum cosine score to count as
a strong match. -/
def SIMILARITY_THRESHOLD : ℚ := 1 / 2

/-- research.py MIN_STRONG_MATCHES = 2: need at least this many strong
matches to skip retry. -/
def MIN_STRONG_MATCHES : ℕ := 2

/-- The strong-match count of research.py: matches with
not m.get("stale") and m.get("similarity_score", 0) >= SIMILARITY_THRESHOLD. -/
def strongCount (ms : List Match) : ℕ :=
  ms.countP (fun m => !m.stale && decide (SIMILARITY_THRESHOLD ≤ m.similarity_score))

/-- has_enough_info as computed in research.py: strong >= MIN_STRONG_MATCHES. -/
def hasEnoughInfoOf (ms : List Match) : Bool :=
  decide (MIN_STRONG_MATCHES ≤ strongCount ms)

/-- Python `search_query or base_query`: None and the empty string are
falsy, any other string is taken as is. -/
def pyOrStr (sq : Option String) (base : String) : String :=
  match sq with
  | none => base
  | some s => if s = "" then base else s

/-- Python str.strip(): drop leading and trailing whitespace (modelled on
the character list of the string). -/
def pyStrip (s : String) : String :=
  ⟨(((s.data.dropWhile Char.isWhitespace).reverse).dropWhile
      Char.isWhitespace).reverse⟩

/-- Helper for pySplitWs: walk the characters, collecting the current word
in reverse in acc; whitespace ends a word, empty pieces are dropped. -/
def splitWsAux : List Char → List Char → List String
  | [], acc => if acc = [] then [] else [⟨acc.reverse⟩]
  | c :: rest, acc =>
    if c.isWhitespace then
      if acc = [] then splitWsAux rest []
      else ⟨acc.reverse⟩ :: splitWsAux rest []
    else splitWsAux rest (c :: acc)

/-- Python str.split() with no argument: split on whitespace runs, dropping
empty pieces. -/
def pySplitWs (s : String) : List String :=
  splitWsAux s.data []

/-- The research judgment layer (a gpt-4o-mini call at temperature 0),
modelled as an oracle receiving the information content of the prompt: the
ticket and the retrieved KB hits (each hit carrying its score and metadata,
as formatted into the user message). `none` models a response with no
parseable JSON object. -/
abbrev ResearchOracle := Ticket → List QueryHit → Option ResearchRaw

/-- research() of research.py: build the query (explicit search_query, or
the stripped "subject body" text), query the vector store, ask the judgment
oracle to summarise, then derive has_enough_info from the matches by the
numeric policy and collect stale_ids. A response without JSON raises
ValueError, modelled as Except.error. -/
def research (d : Emb → Emb → ℚ) (embed : String → Emb) (store : Store)
    (oracle : ResearchOracle) (ticket : Ticket) (search_query : Option String)
    (top_k : ℕ) : Except String ResearchResult :=
  let base_query := pyStrip (ticket.subject ++ " " ++ ticket.body)
  let query := pyOrStr search_query base_query
  let search_terms_used := (pySplitWs query).take 6
  let raw_matches := VectorStore.query d embed store query top_k
  match oracle ticket raw_matches with
  | none => Except.error ("No JSON found in research response")
  | some raw =>
    Except.ok
      ⟨raw.«matches»,
       raw.suggested_search_terms,
       search_terms_used,
       hasEnoughInfoOf raw.«matches»,
       (raw.«matches».filter (fun m => m.stale)).map (fun m => m.source_id)⟩

/-- The parsed JSON payload of the triage model before the setdefault calls
of triage.py; a missing key is none. -/
structure TriageRaw where
  category : Option String
  priority : Option String
  reasoning : Option String
deriving DecidableEq, Repr

/-- The dict triage() returns: category, priority, reasoning and the derived
is_spam flag. -/
structure TriageResult where
  category : String
  priority : String
  reasoning : String
  is_spam : Bool
deriving DecidableEq, Repr

/-- The triage classification layer (a Claude call), as an oracle from the
ticket to the parsed JSON payload; none models a response without JSON. -/
abbrev TriageOracle := Ticket → Option TriageRaw

/-- triage() of triage.py: classify the ticket, fill defaults
(category "general", priority "medium", reasoning ""), and derive
is_spam from category == "spam". -/
def triage (oracle : TriageOracle) (ticket : Ticket) : Except String TriageResult :=
  match oracle ticket with
  | none => Except.error ("No JSON found in triage response")
  | some raw =>
    let category := raw.category.getD "general"
    Except.ok
      ⟨category,
       raw.priority.getD "medium",
       raw.reasoning.getD "",
       category == "spam"⟩

/-- The parsed JSON payload of the drafting model before the setdefault
calls of drafter.py. -/
structure DraftRaw where
  response_text : Option String
  sources_used : Option (List String)
  stale_warning : Option Bool
deriving DecidableEq, Repr

/-- The dict drafter() returns. -/
structure DraftResult where
  response_text : String
  sources_used : List String
  stale_warning : Bool
deriving DecidableEq, Repr

/-- The drafting layer (a gpt-4o-mini call), as an oracle from the prompt
content (ticket, triage verdict, research matches) to the parsed payload. -/
abbrev DraftOracle := Ticket → TriageResult → List Match → Option DraftRaw

/-- drafter() of drafter.py: build the reply from the ticket, triage result
and research matches; fill defaults for missing keys. -/
def drafter (oracle : DraftOracle) (ticket : Ticket) (triage_result : TriageResult)
    (research_result : ResearchResult) : Except String DraftResult :=
  match oracle ticket triage_result research_result.«matches» with
  | none => Except.error ("No JSON found in drafter response")
  | some raw =>
    Except.ok
      ⟨raw.response_text.getD "",
       raw.sources_used.getD [],
       raw.stale_warning.getD false⟩

/-- orchestrator.py MAX_RETRIES = 2: max research retries before drafting
anyway. -/
def MAX_RETRIES : ℕ := 2

/-- The refined query of the retry loop:
terms = previous_result["suggested_search_terms"];
search_query = " ".join(terms) if terms else None. -/
def nextSearchQuery (terms : List String) : Option String :=
  if terms = [] then none else some (String.intercalate " " terms)

/-- The result dict run_pipeline assembles. Field order: ticket, triage,
research, draft, skipped, retries. -/
structure PipelineResult where
  ticket : Ticket
  triage : Option TriageResult
  research : Option ResearchResult
  draft : Option DraftResult
  skipped : Bool
  retries : ℕ
deriving DecidableEq, Repr

/-- The body of `for attempt in range(MAX_RETRIES + 1)` of run_pipeline.
`fuel` counts the loop iterations still allowed after the current one, so
the loop starts at fuel = MAX_RETRIES, attempt = 0 and the invariant
fuel + attempt = MAX_RETRIES holds throughout; recursion is structural on
fuel, mirroring the bounded range. Each attempt calls research with top_k
left at its Python default 3; an Except.error from research propagates
immediately (the Python exception aborts the loop). On success the pair is
(final research result, final value of attempt), which run_pipeline stores
as result["retries"]. The research oracle is a stream `ros`, one judgment
response per attempt index, modelling independent LLM calls. -/
def retryLoopAux (d : Emb → Emb → ℚ) (embed : String → Emb) (store : Store)
    (ros : ℕ → ResearchOracle) (ticket : Ticket) :
    ℕ → ℕ → Option String → Except String (ResearchResult × ℕ)
  | fuel, attempt, search_query =>
    match research d embed store (ros attempt) ticket search_query 3 with
    | Except.error e => Except.error e
    | Except.ok r =>
      if r.has_enough_info then Except.ok (r, attempt)
      else
        match fuel with
        | 0 => Except.ok (r, attempt)
        | fuel' + 1 =>
          retryLoopAux d embed store ros ticket fuel' (attempt + 1)
            (nextSearchQuery r.suggested_search_terms)

/-- The research retry loop of run_pipeline, started at attempt 0 with
search_query = None. -/
def researchWithRetry (d : Emb → Emb → ℚ) (embed : String → Emb) (store : Store)
    (ros : ℕ → ResearchOracle) (ticket : Ticket) :
    Except String (ResearchResult × ℕ) :=
  retryLoopAux d embed store ros ticket MAX_RETRIES 0 none

/-- run_pipeline() of orchestrator.py: triage, spam short-circuit, research
with retry, draft. Collaborator exceptions propagate unmodified as
Except.error. -/
def run_pipeline (d : Emb → Emb → ℚ) (embed : String → Emb) (store : Store)
    (triageOracle : TriageOracle) (ros : ℕ → ResearchOracle)
    (draftOracle : DraftOracle) (ticket : Ticket) :
    Except String PipelineResult :=
  match triage triageOracle ticket with
  | Except.error e => Except.error e
  | Except.ok tr =>
    if tr.is_spam then
      Except.ok ⟨ticket, some tr, none, none, true, 0⟩
    else
      match researchWithRetry d embed store ros ticket with
      | Except.error e => Except.error e
      | Except.ok (rr, retries) =>
        match drafter draftOracle ticket tr rr with
        | Except.error e => Except.error e
        | Except.ok dr =>
          Except.ok ⟨ticket, some tr, some rr, some dr, false, retries⟩

deriving instance DecidableEq for Except

/-! Concrete fixtures used by witnesses and counterexamples. -/

/-- A trivial embedding backend (the embedding service is external). -/
def embed0 : String → Emb := fun _ => []

/-- A cosine backend whose distance is constantly 1/10 (so score 9/10). -/
def d0 : Emb → Emb → ℚ := fun _ _ => 1 / 10

/-- A cosine backend whose distance is constantly 2: the Chroma cosine
distance of two opposite unit vectors (cosine similarity -1). -/
def dOpp : Emb → Emb → ℚ := fun _ _ => 2

/-- Metadata of a sample FAQ record. -/
def meta1 : Metadata :=
  [("source_id", MetaValue.str "faq-1"), ("type", MetaValue.str "faq")]

/-- A sample stored FAQ record. -/
def rec1 : StoredRecord := ⟨"faq-1", [], "Refunds are made within 5 days.", meta1⟩

/-- A one-record store. -/
def store1 : Store := [rec1]

/-- A sample ticket; its base query text is "refund policy". -/
def ticket0 : Ticket := ⟨"T1", "refund", "policy"⟩

/-- A strong non-stale match (score 9/10). -/
def mStrongA : Match := ⟨"faq-1", "snippet a", 9 / 10, "faq", false⟩

/-- A second strong non-stale match (score 6/10). -/
def mStrongB : Match := ⟨"faq-2", "snippet b", 6 / 10, "faq", false⟩

/-- A research oracle returning two strong matches. -/
def oracleC1 : ResearchOracle :=
  fun _ _ => some ⟨[mStrongA, mStrongB], ["billing refund", "payment policy"]⟩

/-- The research result of oracleC1 on ticket0 over store1. -/
def rC1 : ResearchResult :=
  ⟨[mStrongA, mStrongB], ["billing refund", "payment policy"],
   ["refund", "policy"], hasEnoughInfoOf [mStrongA, mStrongB], []⟩

/-- Claim C1: every Research Outcome research() returns has
has_enough_info = true iff at least MIN_STRONG_MATCHES = 2 of its matches
have stale = false and similarity_score >= SIMILARITY_THRESHOLD = 1/2, and
this verdict is a deterministic function of the (stale, similarity_score)
data of the matches list alone, unaffected by snippets or any other
summarization content. -/
theorem research_sufficiency_policy (d : Emb → Emb → ℚ) (embed : String → Emb)
    (store : Store) (oracle : ResearchOracle) (ticket : Ticket)
    (search_query : Option String) (top_k : ℕ) (r : ResearchResult)
    (h : research d embed store oracle ticket search_query top_k = Except.ok r) :
    r.has_enough_info = hasEnoughInfoOf r.«matches» ∧
    (r.has_enough_info = true ↔
      2 ≤ r.«matches».countP
        (fun m => !m.stale && decide ((1 : ℚ) / 2 ≤ m.similarity_score))) ∧
    (∀ ms ms2 : List Match,
      ms.map (fun m => (m.stale, m.similarity_score)) =
        ms2.map (fun m => (m.stale, m.similarity_score)) →
      hasEnoughInfoOf ms = hasEnoughInfoOf ms2) := by
  simp only [research] at h
  cases ho : oracle ticket
      (VectorStore.query d embed store
        (pyOrStr search_query (pyStrip (ticket.subject ++ " " ++ ticket.body))) top_k) with
  | none => rw [ho] at h; exact absurd h (by simp)
  | some raw =>
    rw [ho] at h
    simp only [Except.ok.injEq] at h
    subst h
    refine ⟨rfl, ?_, ?_⟩
    · simp only [hasEnoughInfoOf, strongCount, MIN_STRONG_MATCHES,
        SIMILARITY_THRESHOLD, decide_eq_true_eq]
    · intro ms ms2 hmap
      simp only [hasEnoughInfoOf, strongCount]
      have e1 := List.countP_map
        (fun x : Bool × ℚ => !x.1 && decide (SIMILARITY_THRESHOLD ≤ x.2))
        (fun m : Match => (m.stale, m.similarity_score)) ms
      have e2 := List.countP_map
        (fun x : Bool × ℚ => !x.1 && decide (SIMILARITY_THRESHOLD ≤ x.2))
        (fun m : Match => (m.stale, m.similarity_score)) ms2
      rw [hmap] at e1
      have e3 : ms.countP
          (fun m => !m.stale && decide (SIMILARITY_THRESHOLD ≤ m.similarity_score)) =
          ms2.countP
          (fun m => !m.stale && decide (SIMILARITY_THRESHOLD ≤ m.similarity_score)) :=
        e1.symm.trans e2
      exact congrArg (fun n => decide (MIN_STRONG_MATCHES ≤ n)) e3

/-- Witness for C1 at a concrete input: two strong matches yield
has_enough_info = true and the biconditional holds. -/
theorem research_sufficiency_policy_w :
    rC1.has_enough_info = true ↔
      2 ≤ rC1.«matches».countP
        (fun m => !m.stale && decide ((1 : ℚ) / 2 ≤ m.similarity_score)) :=
  (research_sufficiency_policy d0 embed0 store1 oracleC1 ticket0 none 3 rC1
    rfl).2.1

/-- Claim C8: querying an empty Similarity Index returns [] rather than
erroring, the sufficiency verdict over zero matches is false, and research
over an empty store with a judgment response carrying no matches returns an
outcome with matches = [] and has_enough_info = false. -/
theorem empty_index_query (d : Emb → Emb → ℚ) (embed : String → Emb)
    (q : String) (k : ℕ) :
    VectorStore.query d embed [] q k = [] ∧
    hasEnoughInfoOf [] = false ∧
    (∀ (t : Ticket) (sq : Option String),
      research d embed [] (fun _ _ => some ⟨[], []⟩) t sq k =
        Except.ok ⟨[], [],
          (pySplitWs (pyOrStr sq (pyStrip (t.subject ++ " " ++ t.body)))).take 6,
          false, []⟩) := by
  refine ⟨by simp [VectorStore.query], by decide, ?_⟩
  intro t sq
  simp [research, VectorStore.query, hasEnoughInfoOf, strongCount,
    MIN_STRONG_MATCHES]

/-- Claim C7: on a non-empty index, query returns exactly
min(top_k, index size) results (so at most top_k, clamped to the index
size), sorted by non-increasing similarity score. -/
theorem query_topk_sorted (d : Emb → Emb → ℚ) (embed : String → Emb)
    (store : Store) (q : String) (k : ℕ) (hne : store ≠ []) :
    (VectorStore.query d embed store q k).length = min k store.length ∧
    List.Pairwise (fun a b : QueryHit => b.score ≤ a.score)
      (VectorStore.query d embed store q k) := by
  have hlen : ¬ store.length = 0 := by
    simpa using hne
  have e : VectorStore.query d embed store q k =
      ((List.insertionSort distLE
          (store.map (fun r => (r, d (embed q) r.emb)))).take
        (min k store.length)).map
        (fun p => ⟨p.1.doc, pyStaleRecast p.1.meta, 1 - p.2⟩) := by
    simp [VectorStore.query, hlen]
  constructor
  · rw [e, List.length_map, List.length_take, List.length_insertionSort,
      List.length_map]
    omega
  · rw [e]
    have hs : List.Pairwise distLE
        (List.insertionSort distLE (store.map (fun r => (r, d (embed q) r.emb)))) :=
      List.sorted_insertionSort distLE (store.map (fun r => (r, d (embed q) r.emb)))
    have ht : List.Pairwise distLE
        ((List.insertionSort distLE
            (store.map (fun r => (r, d (embed q) r.emb)))).take
          (min k store.length)) :=
      List.Pairwise.sublist (List.take_sublist _ _) hs
    rw [List.pairwise_map]
    refine ht.imp ?_
    intro a b hab
    simp only [distLE] at hab
    simp only
    linarith

/-- Witness for C7 at a concrete input: the one-record store is non-empty
and the query result is clamped and sorted. -/
theorem query_topk_sorted_w :
    (VectorStore.query d0 embed0 store1 "refund policy" 3).length =
      min 3 store1.length ∧
    List.Pairwise (fun a b : QueryHit => b.score ≤ a.score)
      (VectorStore.query d0 embed0 store1 "refund policy" 3) :=
  query_topk_sorted d0 embed0 store1 "refund policy" 3 (by simp [store1])

/-- Every hit VectorStore.query returns is the postprocessing of some stored
record: text = its document, metadata = its metadata with the stale re-cast,
score = 1 - its backend distance to the query embedding. -/
lemma query_mem_origin (d : Emb → Emb → ℚ) (embed : String → Emb)
    (store : Store) (q : String) (k : ℕ) :
    ∀ h ∈ VectorStore.query d embed store q k,
      ∃ r ∈ store,
        h = QueryHit.mk r.doc (pyStaleRecast r.meta) (1 - d (embed q) r.emb) := by
  intro h hmem
  by_cases hz : store.length = 0
  · simp [VectorStore.query, hz] at hmem
  · have e : VectorStore.query d embed store q k =
        ((List.insertionSort distLE
            (store.map (fun r => (r, d (embed q) r.emb)))).take
          (min k store.length)).map
          (fun p => ⟨p.1.doc, pyStaleRecast p.1.meta, 1 - p.2⟩) := by
      simp [VectorStore.query, hz]
    rw [e] at hmem
    obtain ⟨p, hp, rfl⟩ := List.mem_map.mp hmem
    have hp2 : p ∈ List.insertionSort distLE
        (store.map (fun r => (r, d (embed q) r.emb))) :=
      List.take_subset _ _ hp
    rw [List.mem_insertionSort] at hp2
    obtain ⟨r, hr, rfl⟩ := List.mem_map.mp hp2
    exact ⟨r, hr, rfl⟩

/-- Counterexample to C9: with the backend cosine distance 2 (the Chroma
cosine distance of two opposite unit vectors, cosine similarity -1), the
score paired with the returned record is -1, outside 0.0..1.0. -/
theorem score_unit_range_cex :
    (VectorStore.query dOpp embed0 store1 "q" 3).map (fun h => h.score) =
      [-1] ∧
    ¬ (0 ≤ (-1 : ℚ)) := by
  constructor
  · simp [VectorStore.query, store1, rec1, dOpp, embed0, List.insertionSort,
      List.orderedInsert]
    norm_num
  · norm_num

/-- Claim C9 amended: the source computes score = 1 - chroma cosine
distance without rescaling; since a cosine distance lies in 0..2, every
similarity score paired with a result lies in -1.0..1.0 (not 0.0..1.0),
higher meaning more relevant. -/
theorem score_unit_range_amended (d : Emb → Emb → ℚ) (embed : String → Emb)
    (store : Store) (q : String) (k : ℕ)
    (hd : ∀ v w, 0 ≤ d v w ∧ d v w ≤ 2) :
    ∀ h ∈ VectorStore.query d embed store q k,
      -1 ≤ h.score ∧ h.score ≤ 1 := by
  intro h hmem
  obtain ⟨r, _, rfl⟩ := query_mem_origin d embed store q k h hmem
  have hb := hd (embed q) r.emb
  constructor
  · simp only
    linarith [hb.2]
  · simp only
    linarith [hb.1]

/-- Witness for C9 amended at a concrete input: the constant-distance-1/10
backend satisfies the cosine bound and its returned score 9/10 lies in
-1..1. -/
theorem score_unit_range_amended_w :
    -1 ≤ (QueryHit.mk rec1.doc (pyStaleRecast rec1.meta) (1 - 1 / 10)).score ∧
    (QueryHit.mk rec1.doc (pyStaleRecast rec1.meta) (1 - 1 / 10)).score ≤ 1 :=
  score_unit_range_amended d0 embed0 store1 "q" 3
    (fun _ _ => ⟨by norm_num [d0], by norm_num [d0]⟩)
    (QueryHit.mk rec1.doc (pyStaleRecast rec1.meta) (1 - 1 / 10))
    (by simp [VectorStore.query, store1, d0, embed0, List.insertionSort,
      List.orderedInsert])

/-- A research oracle stream whose every response parses but is
insufficient (no matches) and suggests the single search term "". -/
def rosC6 : ℕ → ResearchOracle := fun _ _ _ => some ⟨[], [""]⟩

/-- Counterexample to C6: when the previous outcome suggests the single
term "", the claim says the next query is the joined string "" (whose
whitespace split is []); the code instead falls back to the raw ticket
text, because Python `search_query or base_query` treats "" as falsy. The
executed loop's final search_terms_used = ["refund", "policy"] comes from
the ticket text, not from the joined suggestion. -/
theorem retry_query_join_cex :
    researchWithRetry d0 embed0 [] rosC6 ticket0 =
      Except.ok (⟨[], [""], ["refund", "policy"], false, []⟩, 2) ∧
    nextSearchQuery [""] = some "" ∧
    String.intercalate " " [""] = "" ∧
    pySplitWs "" = [] ∧
    ¬ (["refund", "policy"] = ([] : List String)) := by
  exact ⟨rfl, rfl, rfl, rfl, by simp⟩

/-- Claim C6 amended: the first attempt runs with search_query = None and
so uses the raw ticket text; on an insufficient attempt the next query is
the previous outcome's suggested_search_terms joined with spaces, except
that when no terms were suggested — or the joined string is empty — the
retry uses the original ticket text again (pyOrStr and nextSearchQuery are
exactly the query plumbing of research() and of the retry loop). -/
theorem retry_query_amended (terms : List String) (base : String) :
    pyOrStr none base = base ∧
    pyOrStr (nextSearchQuery terms) base =
      (if terms = [] ∨ String.intercalate " " terms = "" then base
       else String.intercalate " " terms) := by
  refine ⟨rfl, ?_⟩
  by_cases h1 : terms = []
  · simp [nextSearchQuery, pyOrStr, h1]
  · by_cases h2 : String.intercalate " " terms = ""
    · simp [nextSearchQuery, pyOrStr, h1, h2]
    · simp [nextSearchQuery, pyOrStr, h1, h2]

/-- When the judgment oracle yields a parsed payload for the retrieved
hits, research returns Except.ok. -/
lemma research_isOk (d : Emb → Emb → ℚ) (embed : String → Emb) (store : Store)
    (oracle : ResearchOracle) (ticket : Ticket) (sq : Option String) (k : ℕ)
    (hro : ∀ hits, oracle ticket hits ≠ none) :
    ∃ r, research d embed store oracle ticket sq k = Except.ok r := by
  simp only [research]
  cases ho : oracle ticket
      (VectorStore.query d embed store
        (pyOrStr sq (pyStrip (ticket.subject ++ " " ++ ticket.body))) k) with
  | none => exact absurd ho (hro _)
  | some raw => exact ⟨_, rfl⟩

/-- One-step unfolding of retryLoopAux at fuel 0 (the last loop
iteration): the attempt's outcome is final whether or not sufficient. -/
lemma retryLoopAux_zero (d : Emb → Emb → ℚ) (embed : String → Emb)
    (store : Store) (ros : ℕ → ResearchOracle) (ticket : Ticket)
    (attempt : ℕ) (sq : Option String) :
    retryLoopAux d embed store ros ticket 0 attempt sq =
      match research d embed store (ros attempt) ticket sq 3 with
      | Except.error e => Except.error e
      | Except.ok r => Except.ok (r, attempt) := by
  unfold retryLoopAux
  cases research d embed store (ros attempt) ticket sq 3 with
  | error e => rfl
  | ok r => by_cases he : r.has_enough_info <;> simp [he]

/-- One-step unfolding of retryLoopAux with fuel left: stop on sufficiency,
otherwise recurse with the refined query. -/
lemma retryLoopAux_succ (d : Emb → Emb → ℚ) (embed : String → Emb)
    (store : Store) (ros : ℕ → ResearchOracle) (ticket : Ticket)
    (f attempt : ℕ) (sq : Option String) :
    retryLoopAux d embed store ros ticket (f + 1) attempt sq =
      match research d embed store (ros attempt) ticket sq 3 with
      | Except.error e => Except.error e
      | Except.ok r =>
        if r.has_enough_info then Except.ok (r, attempt)
        else retryLoopAux d embed store ros ticket f (attempt + 1)
          (nextSearchQuery r.suggested_search_terms) := by
  conv_lhs => rw [retryLoopAux]

/-- Totality and retry bound of the loop body: with parseable judgment
responses the loop always returns Except.ok (r, n) with
attempt <= n <= attempt + fuel, and reaches n = attempt + fuel only by
exhaustion (n < attempt + fuel implies the final outcome was sufficient). -/
lemma retryLoopAux_total (d : Emb → Emb → ℚ) (embed : String → Emb)
    (store : Store) (ros : ℕ → ResearchOracle) (ticket : Ticket)
    (hro : ∀ n hits, ros n ticket hits ≠ none) :
    ∀ fuel attempt sq, ∃ r n,
      retryLoopAux d embed store ros ticket fuel attempt sq =
        Except.ok (r, n) ∧
      attempt ≤ n ∧ n ≤ attempt + fuel ∧
      (r.has_enough_info = false → n = attempt + fuel) := by
  intro fuel
  induction fuel with
  | zero =>
    intro attempt sq
    obtain ⟨r, hres⟩ :=
      research_isOk d embed store (ros attempt) ticket sq 3 (hro attempt)
    refine ⟨r, attempt, ?_, le_refl _, by omega, fun _ => by omega⟩
    rw [retryLoopAux_zero, hres]
  | succ f ih =>
    intro attempt sq
    obtain ⟨r, hres⟩ :=
      research_isOk d embed store (ros attempt) ticket sq 3 (hro attempt)
    cases he : r.has_enough_info with
    | true =>
      refine ⟨r, attempt, ?_, le_refl _, by omega, by simp [he]⟩
      rw [retryLoopAux_succ, hres]
      simp [he]
    | false =>
      obtain ⟨r2, n, hloop, h1, h2, h3⟩ :=
        ih (attempt + 1) (nextSearchQuery r.suggested_search_terms)
      refine ⟨r2, n, ?_, by omega, by omega, fun hf => by have := h3 hf; omega⟩
      rw [retryLoopAux_succ, hres]
      simp [he]
      exact hloop

/-- When the drafting oracle yields a parsed payload, drafter returns
Except.ok. -/
lemma drafter_isOk (oracle : DraftOracle) (ticket : Ticket)
    (tr : TriageResult) (rr : ResearchResult)
    (hdo : oracle ticket tr rr.«matches» ≠ none) :
    ∃ dr, drafter oracle ticket tr rr = Except.ok dr := by
  simp only [drafter]
  cases ho : oracle ticket tr rr.«matches» with
  | none => exact absurd ho hdo
  | some raw => exact ⟨_, rfl⟩

/-- A triage payload classifying the ticket as billing (not spam). -/
def triOracleOK : TriageOracle :=
  fun _ => some ⟨some "billing", some "high", some "ok"⟩

/-- The filled triage result of triOracleOK. -/
def trOK : TriageResult := ⟨"billing", "high", "ok", false⟩

/-- A research oracle stream that always parses and reports two strong
matches. -/
def rosOK : ℕ → ResearchOracle :=
  fun _ _ _ => some ⟨[mStrongA, mStrongB], ["billing refund"]⟩

/-- A drafting oracle that always parses. -/
def draftOracleOK : DraftOracle :=
  fun _ _ _ => some ⟨some "reply text", some ["faq-1"], some false⟩

/-- Claim C2: with parseable judgment responses on a non-spam ticket,
run_pipeline always terminates with a research outcome present, consuming
at most MAX_RETRIES = 2 retries beyond the first attempt; it stops at
retries = 0 as soon as the first attempt is sufficient, and an insufficient
final outcome is returned (not blocked on) exactly at retries =
MAX_RETRIES, i.e. after exhaustion. -/
theorem pipeline_retry_bounded (d : Emb → Emb → ℚ) (embed : String → Emb)
    (store : Store) (triageOracle : TriageOracle) (ros : ℕ → ResearchOracle)
    (draftOracle : DraftOracle) (ticket : Ticket) (tr : TriageResult)
    (htr : triage triageOracle ticket = Except.ok tr)
    (hspam : tr.is_spam = false)
    (hro : ∀ n hits, ros n ticket hits ≠ none)
    (hdo : ∀ t2 ms, draftOracle ticket t2 ms ≠ none) :
    ∃ res r,
      run_pipeline d embed store triageOracle ros draftOracle ticket =
        Except.ok res ∧
      res.research = some r ∧
      res.retries ≤ MAX_RETRIES ∧
      (r.has_enough_info = false → res.retries = MAX_RETRIES) ∧
      (∀ r0, research d embed store (ros 0) ticket none 3 = Except.ok r0 →
        r0.has_enough_info = true → res.retries = 0 ∧ r = r0) := by
  obtain ⟨r, n, hloop, h0, h2, hex⟩ :=
    retryLoopAux_total d embed store ros ticket hro MAX_RETRIES 0 none
  obtain ⟨dr, hdr⟩ := drafter_isOk draftOracle ticket tr r (hdo tr r.«matches»)
  refine ⟨⟨ticket, some tr, some r, some dr, false, n⟩, r, ?_, rfl,
    by simpa using h2, fun hf => by simpa using hex hf, ?_⟩
  · simp only [run_pipeline, researchWithRetry, htr, hspam, hloop, hdr,
      Bool.false_eq_true, if_false]
  · intro r0 hres0 hen
    have hMR : MAX_RETRIES = 1 + 1 := rfl
    have hstep : retryLoopAux d embed store ros ticket MAX_RETRIES 0 none =
        Except.ok (r0, 0) := by
      rw [hMR, retryLoopAux_succ, hres0]
      simp [hen]
    have hcmp := hloop.symm.trans hstep
    simp only [Except.ok.injEq, Prod.mk.injEq] at hcmp
    exact ⟨hcmp.2, hcmp.1⟩

/-- Witness for C2 at a concrete input: billing ticket, always-parseable
oracles. -/
theorem pipeline_retry_bounded_w :
    ∃ res r,
      run_pipeline d0 embed0 store1 triOracleOK rosOK draftOracleOK ticket0 =
        Except.ok res ∧
      res.research = some r ∧
      res.retries ≤ MAX_RETRIES ∧
      (r.has_enough_info = false → res.retries = MAX_RETRIES) ∧
      (∀ r0, research d0 embed0 store1 (rosOK 0) ticket0 none 3 =
          Except.ok r0 →
        r0.has_enough_info = true → res.retries = 0 ∧ r = r0) :=
  pipeline_retry_bounded d0 embed0 store1 triOracleOK rosOK draftOracleOK
    ticket0 trOK rfl rfl (fun _ _ h => Option.noConfusion h)
    (fun _ _ h => Option.noConfusion h)

/-- Claim C3: run_pipeline returns with skipped = true exactly when triage
classifies the ticket as spam; in that case the result carries no research
outcome, no draft and zero retries (the return happens right after
classification); in every other successful return both research and draft
are present — the spam verdict is the sole early-exit path of a successful
run. -/
theorem spam_short_circuit (d : Emb → Emb → ℚ) (embed : String → Emb)
    (store : Store) (triageOracle : TriageOracle) (ros : ℕ → ResearchOracle)
    (draftOracle : DraftOracle) (ticket : Ticket) (res : PipelineResult)
    (h : run_pipeline d embed store triageOracle ros draftOracle ticket =
      Except.ok res) :
    (res.skipped = true ↔
      ∃ tr, triage triageOracle ticket = Except.ok tr ∧ tr.is_spam = true) ∧
    (res.skipped = true →
      res.research = none ∧ res.draft = none ∧ res.retries = 0) ∧
    (res.skipped = false →
      res.research.isSome = true ∧ res.draft.isSome = true) := by
  unfold run_pipeline at h
  split at h
  · exact absurd h (by simp)
  · rename_i tr htr
    split at h
    · rename_i hs
      simp only [Except.ok.injEq] at h
      subst h
      exact ⟨⟨fun _ => ⟨tr, htr, hs⟩, fun _ => rfl⟩,
        fun _ => ⟨rfl, rfl, rfl⟩, fun hfalse => by simp at hfalse⟩
    · rename_i hs
      split at h
      · exact absurd h (by simp)
      · rename_i rr retries hrr
        split at h
        · exact absurd h (by simp)
        · rename_i dr hdr
          simp only [Except.ok.injEq] at h
          subst h
          refine ⟨⟨fun hfalse => by simp at hfalse, ?_⟩,
            fun hfalse => by simp at hfalse, fun _ => ⟨rfl, rfl⟩⟩
          rintro ⟨tr2, htr2, hsp2⟩
          rw [htr] at htr2
          simp only [Except.ok.injEq] at htr2
          subst htr2
          exact absurd hsp2 hs

/-- A triage payload classifying the ticket as spam. -/
def triOracleSpam : TriageOracle :=
  fun _ => some ⟨some "spam", some "low", some "ad"⟩

/-- The pipeline result of a spam-classified ticket. -/
def resSpam : PipelineResult :=
  ⟨ticket0, some ⟨"spam", "low", "ad", true⟩, none, none, true, 0⟩

/-- Witness for C3 at a concrete input: a spam-classified ticket is skipped
with no research and no draft. -/
theorem spam_short_circuit_w :
    (resSpam.skipped = true ↔
      ∃ tr, triage triOracleSpam ticket0 = Except.ok tr ∧ tr.is_spam = true) ∧
    (resSpam.skipped = true →
      resSpam.research = none ∧ resSpam.draft = none ∧ resSpam.retries = 0) ∧
    (resSpam.skipped = false →
      resSpam.research.isSome = true ∧ resSpam.draft.isSome = true) :=
  spam_short_circuit d0 embed0 store1 triOracleSpam rosOK draftOracleOK
    ticket0 resSpam rfl

/-- Claim C5: a judgment-layer response without parseable JSON is a hard
failure: research returns Except.error (never an ok outcome treated as
insufficient), a research error at the current attempt aborts the retry
loop immediately with that error (prior attempts' results are discarded),
and the error propagates out of run_pipeline unmodified. -/
theorem malformed_research_aborts (d : Emb → Emb → ℚ) (embed : String → Emb)
    (store : Store) (ticket : Ticket) :
    (∀ (oracle : ResearchOracle) (sq : Option String) (k : ℕ),
      oracle ticket
        (VectorStore.query d embed store
          (pyOrStr sq (pyStrip (ticket.subject ++ " " ++ ticket.body))) k) =
        none →
      research d embed store oracle ticket sq k =
        Except.error ("No JSON found in research response")) ∧
    (∀ (ros : ℕ → ResearchOracle) (fuel attempt : ℕ) (sq : Option String)
        (e : String),
      research d embed store (ros attempt) ticket sq 3 = Except.error e →
      retryLoopAux d embed store ros ticket fuel attempt sq =
        Except.error e) ∧
    (∀ (triageOracle : TriageOracle) (ros : ℕ → ResearchOracle)
        (draftOracle : DraftOracle) (tr : TriageResult) (e : String),
      triage triageOracle ticket = Except.ok tr → tr.is_spam = false →
      researchWithRetry d embed store ros ticket = Except.error e →
      run_pipeline d embed store triageOracle ros draftOracle ticket =
        Except.error e) := by
  refine ⟨?_, ?_, ?_⟩
  · intro oracle sq k ho
    simp only [research]
    rw [ho]
  · intro ros fuel attempt sq e hres
    cases fuel with
    | zero => rw [retryLoopAux_zero, hres]
    | succ f => rw [retryLoopAux_succ, hres]
  · intro triageOracle ros draftOracle tr e htr hsp hrr
    simp only [run_pipeline, htr, hsp, Bool.false_eq_true, if_false, hrr]

/-- A research oracle whose response never contains JSON. -/
def oracleNone : ResearchOracle := fun _ _ => none

/-- A research oracle stream whose every response lacks JSON. -/
def rosNone : ℕ → ResearchOracle := fun _ => oracleNone

/-- Witness for C5 at a concrete input: the JSON-less response makes
research error, aborts the loop, and surfaces from run_pipeline. -/
theorem malformed_research_aborts_w :
    research d0 embed0 store1 oracleNone ticket0 none 3 =
      Except.error ("No JSON found in research response") ∧
    retryLoopAux d0 embed0 store1 rosNone ticket0 MAX_RETRIES 0 none =
      Except.error ("No JSON found in research response") ∧
    run_pipeline d0 embed0 store1 triOracleOK rosNone draftOracleOK ticket0 =
      Except.error ("No JSON found in research response") :=
  ⟨(malformed_research_aborts d0 embed0 store1 ticket0).1 oracleNone none 3
      rfl,
   (malformed_research_aborts d0 embed0 store1 ticket0).2.1 rosNone
      MAX_RETRIES 0 none ("No JSON found in research response") rfl,
   (malformed_research_aborts d0 embed0 store1 ticket0).2.2 triOracleOK
      rosNone draftOracleOK trOK ("No JSON found in research response")
      rfl rfl rfl⟩

/-- A judgment oracle that reports the retrieved faq-1 record with an
invented similarity score 3/4 instead of the index's score. -/
def oracleC4 : ResearchOracle :=
  fun _ _ => some ⟨[⟨"faq-1", "refund snippet", 3 / 4, "faq", false⟩],
    ["refund timeline"]⟩

/-- The match carried by oracleC4. -/
def mC4 : Match := ⟨"faq-1", "refund snippet", 3 / 4, "faq", false⟩

/-- The research result produced from oracleC4 over store1. -/
def rC4 : ResearchResult :=
  ⟨[mC4], ["refund timeline"], ["refund", "policy"],
   hasEnoughInfoOf [mC4], []⟩

/-- Counterexample to C4: the code takes the judgment layer's matches
verbatim and nothing enforces score copying — with an oracle that invents
3/4 for the faq-1 hit whose index score is 1 - 1/10 = 9/10, the outcome's
Match carries 3/4, not the index's score. -/
theorem score_passthrough_cex :
    (VectorStore.query d0 embed0 store1
        (pyOrStr none (pyStrip (ticket0.subject ++ " " ++ ticket0.body))) 3).map
      (fun h => h.score) = [1 - 1 / 10] ∧
    research d0 embed0 store1 oracleC4 ticket0 none 3 = Except.ok rC4 ∧
    rC4.«matches».map (fun m => m.similarity_score) = [3 / 4] ∧
    ¬ ((3 : ℚ) / 4 = 1 - 1 / 10) := by
  refine ⟨rfl, rfl, rfl, by norm_num⟩

/-- Claim C4 amended: research() forwards each index hit (with its true
score) to the judgment layer and then carries the judgment layer's matches
through without modifying any similarity_score; consequently, whenever the
judgment oracle copies scores faithfully from the hits it was shown, every
Match's similarity_score equals the score of a hit the index returned. The
unconditional equality of the original claim holds only under that
faithfulness assumption on the external judgment layer. -/
theorem score_passthrough_amended (d : Emb → Emb → ℚ) (embed : String → Emb)
    (store : Store) (oracle : ResearchOracle) (ticket : Ticket)
    (sq : Option String) (k : ℕ)
    (hfaithful : ∀ t hits raw, oracle t hits = some raw →
      ∀ m ∈ raw.«matches», ∃ h ∈ hits, m.similarity_score = h.score) :
    ∀ r, research d embed store oracle ticket sq k = Except.ok r →
      (∃ raw, oracle ticket
          (VectorStore.query d embed store
            (pyOrStr sq (pyStrip (ticket.subject ++ " " ++ ticket.body))) k) =
          some raw ∧
        r.«matches» = raw.«matches») ∧
      (∀ m ∈ r.«matches»,
        ∃ h ∈ VectorStore.query d embed store
            (pyOrStr sq (pyStrip (ticket.subject ++ " " ++ ticket.body))) k,
          m.similarity_score = h.score) := by
  intro r hres
  simp only [research] at hres
  cases ho : oracle ticket
      (VectorStore.query d embed store
        (pyOrStr sq (pyStrip (ticket.subject ++ " " ++ ticket.body))) k) with
  | none => rw [ho] at hres; exact absurd hres (by simp)
  | some raw =>
    rw [ho] at hres
    simp only [Except.ok.injEq] at hres
    subst hres
    exact ⟨⟨raw, rfl, rfl⟩, fun m hm => hfaithful ticket _ raw ho m hm⟩

/-- A judgment oracle that copies every hit through faithfully, score
included. -/
def oracleFaithful : ResearchOracle :=
  fun _ hits =>
    some ⟨hits.map (fun h => ⟨"faq-1", h.text, h.score, "faq", false⟩),
      ["refund"]⟩

/-- The match oracleFaithful produces for the faq-1 hit of store1. -/
def mFW : Match := ⟨"faq-1", rec1.doc, 1 - 1 / 10, "faq", false⟩

/-- The research result of oracleFaithful on ticket0 over store1. -/
def rFW : ResearchResult :=
  ⟨[mFW], ["refund"], ["refund", "policy"], hasEnoughInfoOf [mFW], []⟩

/-- Witness for C4 amended at a concrete input: with the faithful oracle,
the outcome's match score is the score of a returned hit. -/
theorem score_passthrough_amended_w :
    ∃ h ∈ VectorStore.query d0 embed0 store1
        (pyOrStr none (pyStrip (ticket0.subject ++ " " ++ ticket0.body))) 3,
      mFW.similarity_score = h.score :=
  ((score_passthrough_amended d0 embed0 store1 oracleFaithful ticket0 none 3
      (by
        intro t hits raw hr m hm
        simp only [oracleFaithful, Option.some.injEq] at hr
        subst hr
        obtain ⟨h1, hh1, rfl⟩ := List.mem_map.mp hm
        exact ⟨h1, hh1, rfl⟩))
    rFW rfl).2 mFW (by simp [rFW])

/-- Looking up any key after add_batch's bool-to-str metadata cast gives
the cast of the original value. -/
lemma lookup_castMeta (k : String) (m : Metadata) :
    List.lookup k (castMeta m) = (List.lookup k m).map castVal := by
  induction m with
  | nil => rfl
  | cons p rest ih =>
    obtain ⟨a, v⟩ := p
    simp only [castMeta, List.map_cons] at ih ⊢
    cases hk : k == a with
    | true => simp [List.lookup, hk]
    | false => simpa [List.lookup, hk] using ih

/-- Claim C10: the stale flag round-trips through the store. A record
upserted by add_batch with boolean metadata stale = s is stored with the
string "True"/"False" (Python str(bool)) and every query hit returning it
carries stale re-cast to the bool s; a record stored without a stale key
comes back with stale = false. -/
theorem stale_roundtrip (d : Emb → Emb → ℚ) (embed : String → Emb)
    (text : String) (m : Metadata) (s : Bool) (st : Store) (q : String)
    (k : ℕ) (hadd : addBatch embed [] [(text, m)] = some st) :
    (List.lookup "stale" m = some (MetaValue.bool s) →
      ∀ h ∈ VectorStore.query d embed st q k,
        List.lookup "stale" h.meta = some (MetaValue.bool s)) ∧
    (List.lookup "stale" m = none →
      ∀ h ∈ VectorStore.query d embed st q k,
        List.lookup "stale" h.meta = some (MetaValue.bool false)) := by
  have hst : st = [⟨(metaSourceId m).getD "", embed text, text, castMeta m⟩] := by
    simp only [addBatch] at hadd
    cases hsid : metaSourceId m with
    | none => rw [hsid] at hadd; exact absurd hadd (by simp)
    | some sid =>
      rw [hsid] at hadd
      simp only [addBatch, upsertRecord, List.any_nil, Bool.false_eq_true,
        if_false, List.nil_append, Option.some.injEq] at hadd
      rw [← hadd]
      rfl
  subst hst
  constructor
  · intro hstale h hmem
    obtain ⟨r2, hr2, rfl⟩ := query_mem_origin d embed _ q k h hmem
    simp only [List.mem_singleton] at hr2
    subst hr2
    simp only [pyStaleRecast, List.lookup, beq_self_eq_true,
      Option.some.injEq, MetaValue.bool.injEq]
    simp only [staleRead, lookup_castMeta, hstale, Option.map_some]
    cases s with
    | true => simp [castVal, pyBoolStr]
    | false => simp [castVal, pyBoolStr]
  · intro hnone h hmem
    obtain ⟨r2, hr2, rfl⟩ := query_mem_origin d embed _ q k h hmem
    simp only [List.mem_singleton] at hr2
    subst hr2
    simp only [pyStaleRecast, List.lookup, beq_self_eq_true,
      Option.some.injEq, MetaValue.bool.injEq]
    simp [staleRead, lookup_castMeta, hnone]

/-- Metadata of a stale past ticket as built by load_past_tickets. -/
def metaS : Metadata :=
  [("source_id", MetaValue.str "ticket-1"), ("stale", MetaValue.bool true)]

/-- The store after add_batch of the single stale record. -/
def stS : Store := [⟨"ticket-1", embed0 "txt", "txt", castMeta metaS⟩]

/-- The hit returned for the stale record. -/
def hitS : QueryHit := ⟨"txt", pyStaleRecast (castMeta metaS), 1 - 1 / 10⟩

/-- Witness for C10 at a concrete input: a record upserted with
stale = true is returned with stale = true. -/
theorem stale_roundtrip_w :
    List.lookup "stale" hitS.meta = some (MetaValue.bool true) :=
  (stale_roundtrip d0 embed0 "txt" metaS true stS "q" 3 rfl).1 rfl hitS
    (by simp [VectorStore.query, stS, d0, embed0, List.insertionSort,
      List.orderedInsert, hitS])
